import Mathlib

/-!
# Verification of the OpenWeather batch-collection service

Shallow embedding of `src/main.py`: the data model (`WeatherData`), the
JSON serialization used for the Redis-backed progress store
(`store_weather_data` / `get_weather_data`), the per-city fetch with its
failure handling (`fetch_weather_data`), the batch loop of
`collect_weather_data` (modelled as the trace of states persisted after
each batch), the request handlers (`post_weather_data`,
`get_weather_progress`), and the `ratelimit` library's fixed-window
limiter that decorates `fetch_weather_data`.

Machine reals (Python floats) are modelled as exact rationals; times are
modelled in whole seconds as naturals.
-/

namespace OpenWeather

/-- `RATE_LIMIT = 60` requests per window (src/main.py line 28). -/
def RATE_LIMIT : Nat := 60

/-- `TIME_PERIOD = 60` seconds (src/main.py line 29). -/
def TIME_PERIOD : Nat := 60

/-- `BATCH_SIZE = 60` cities per batch (src/main.py line 30). -/
def BATCH_SIZE : Nat := 60

/-- The pydantic `WeatherData` model (src/main.py lines 46-51): one
observation. `temperature` (a Python float) is modelled as an exact
rational; `city_id` and `humidity` (Python ints) as integers. -/
structure WeatherData where
  user_id : String
  datetime : String
  city_id : Int
  temperature : ℚ
  humidity : Int
deriving DecidableEq

/-- JSON values as produced by `json.dumps` / consumed by `json.loads`:
the AST of the serialized blob kept in Redis. Python's round-trip of
primitive values through the textual form is the identity, so the store
is modelled at this level. -/
inductive JValue where
  | str (s : String)
  | int (n : Int)
  | num (q : ℚ)
  | arr (l : List JValue)
  | obj (kvs : List (String × JValue))

/-- `d.dict()` for a `WeatherData` `d`, as serialized by `json.dumps`
(src/main.py line 91). -/
def encodeWD (d : WeatherData) : JValue :=
  .obj [("user_id", .str d.user_id), ("datetime", .str d.datetime),
        ("city_id", .int d.city_id), ("temperature", .num d.temperature),
        ("humidity", .int d.humidity)]

/-- `store_weather_data` (src/main.py lines 89-92): the serialized value
written under the user's Redis key. -/
def store_weather_data (data : List WeatherData) : JValue :=
  .arr (data.map encodeWD)

/-- `WeatherData(**d)` applied to one decoded JSON object
(src/main.py line 98): look the five fields up by name and build the
record; any missing or ill-typed field raises, modelled as `none`. -/
def decodeWD (j : JValue) : Option WeatherData :=
  match j with
  | .obj kvs =>
    match kvs.lookup ("user_id"), kvs.lookup ("datetime"), kvs.lookup ("city_id"),
        kvs.lookup ("temperature"), kvs.lookup ("humidity") with
    | some (.str u), some (.str dt), some (.int c), some (.num t), some (.int h) =>
        some ⟨u, dt, c, t, h⟩
    | _, _, _, _, _ => none
  | _ => none

/-- The list comprehension `[WeatherData(**d) for d in json.loads(data)]`
over the elements of a decoded JSON array; a failure on any element
raises, modelled as `none`. -/
def decodeAll : List JValue → Option (List WeatherData)
  | [] => some []
  | j :: js =>
    match decodeWD j, decodeAll js with
    | some d, some ds => some (d :: ds)
    | _, _ => none

/-- `get_weather_data` (src/main.py lines 94-99) reading the Redis key
state `st` (`none` = key absent): an absent key yields `[]`; a present
key is parsed, where in the model the outer `none` stands for the
exception raised on a blob that does not decode to a list of
observation records. -/
def get_weather_data (st : Option JValue) : Option (List WeatherData) :=
  match st with
  | none => some []
  | some (.arr l) => decodeAll l
  | some _ => none

/-- The parsed JSON body of a 200 response, restricted to the fields the
code reads: `data["main"]["temp"]`, `data["main"]["humidity"]` and
`data["name"]` (src/main.py lines 69-72). A missing field raises
`KeyError`, hence the `Option`s. -/
structure Payload where
  temp : Option ℚ
  humidity : Option Int
  name : Option String
deriving DecidableEq

/-- Outcome of the one HTTP round-trip inside `fetch_weather_data`:
a 200 response with parsed body, a non-200 status, an
`aiohttp.ClientError`, or any other exception. -/
inductive FetchOutcome where
  | ok (p : Payload)
  | httpError (status : Nat)
  | clientError
  | otherError
deriving DecidableEq

/-- `fetch_weather_data` (src/main.py lines 55-82) at one call, given the
outcome `o` of its HTTP request, the city, the user and the current UTC
timestamp. On a 200 response it builds the `WeatherData` record (a
`KeyError` on `temp`/`humidity`, or on `name` in the success log line,
is caught by the generic handler); a non-200 status, a `ClientError`
and any other exception are caught and return `None`. Note the non-200
branch itself raises `NameError` (`data` is unbound there), which the
generic handler turns into `None` as well. -/
def fetch_weather_data (o : FetchOutcome) (city_id : Int) (user_id : String)
    (now : String) : Option WeatherData :=
  match o with
  | .ok p =>
    match p.temp, p.humidity, p.name with
    | some t, some h, some _ => some ⟨user_id, now, city_id, t, h⟩
    | _, _, _ => none
  | _ => none

/-- An outcome that does not yield an observation: any transport or
unexpected error, any non-success status, or a success response whose
payload misses one of the fields the code reads. -/
def isFailure : FetchOutcome → Bool
  | .ok p => p.temp.isNone || p.humidity.isNone || p.name.isNone
  | _ => true

/-- `process_batch` (src/main.py lines 84-87): gather one fetch per city
of the batch, keep the non-`None` results. `f` gives each city's fetch
result for this run. -/
def process_batch (f : Int → Option WeatherData) (batch : List Int) :
    List WeatherData :=
  (batch.map f).filterMap id

/-- Structural worker for `chunks`: `fuel` only bounds the recursion
depth and is irrelevant as long as it is at least the list's length
(one slice consumes at least one element). -/
def chunksAux {α : Type} (B : Nat) : Nat → List α → List (List α)
  | _, [] => []
  | 0, _ :: _ => []
  | fuel + 1, x :: xs => ((x :: xs).take B) :: chunksAux B fuel (xs.drop (B - 1))

/-- The slicing loop `for i in range(0, len(l), B): l[i:i+B]`
(src/main.py lines 117-118): split `l` into consecutive chunks of `B`
elements (the last one possibly shorter). For `1 ≤ B` — the only way the
source uses it, with `B = BATCH_SIZE = 60` — `chunks B l` is exactly the
list of slices the loop visits. -/
def chunks {α : Type} (B : Nat) (l : List α) : List (List α) :=
  chunksAux B l.length l

/-- Lines 113-115 of src/main.py: `processed_city_ids` is the set of
city ids of the loaded results and `cities_to_process` keeps the cities
of the catalog that are not in it, in catalog order. -/
def remainingCities (catalog : List Int) (results : List WeatherData) :
    List Int :=
  catalog.filter (fun c => decide (c ∉ results.map WeatherData.city_id))

/-- The body of the batch loop (src/main.py lines 117-132): for each
batch in order, extend `results` with the batch's successful
observations, then store the full updated list. The returned list is
the trace of the states persisted by `store_weather_data`, one entry
per batch, in order. -/
def runBatches (f : Int → Option WeatherData) (results : List WeatherData) :
    List (List Int) → List (List WeatherData)
  | [] => []
  | b :: bs =>
    (results ++ process_batch f b) ::
      runBatches f (results ++ process_batch f b) bs

/-- `collect_weather_data` (src/main.py lines 101-139) for one run,
started from the loaded state `stored`, as the trace of persisted
states: compute the remaining cities, slice them into batches of
`BATCH_SIZE`, and run the batch loop. `f` gives each city's fetch
result during this run. -/
def collectSnapshots (catalog : List Int) (f : Int → Option WeatherData)
    (stored : List WeatherData) : List (List WeatherData) :=
  runBatches f stored (chunks BATCH_SIZE (remainingCities catalog stored))

/-- The same run with the fetch instantiated as in the source: each city
is fetched by `fetch_weather_data` on the environment's outcome `env c`
at timestamp `nowf c`. -/
def collect_weather_data (catalog : List Int) (env : Int → FetchOutcome)
    (nowf : Int → String) (user : String) (stored : List WeatherData) :
    List (List WeatherData) :=
  collectSnapshots catalog
    (fun c => fetch_weather_data (env c) c user (nowf c)) stored

/-- The cities for which the run issues a fetch: every city of every
batch the loop processes, in processing order (src/main.py lines
117-120 with line 85: one fetch task per city of each batch). -/
def fetchedCities (catalog : List Int) (stored : List WeatherData) :
    List Int :=
  (chunks BATCH_SIZE (remainingCities catalog stored)).flatten

/-- The three bodies `post_weather_data` can answer with
(src/main.py lines 147, 149, 154). -/
inductive PostResponse where
  | completed
  | resuming
  | started
deriving DecidableEq

/-- `post_weather_data` (src/main.py lines 141-154) as a function of the
user's Redis key state: load the existing data; if non-empty, answer
`completed` when its length equals the catalog's and `resuming`
otherwise — in both cases without creating a task; if empty, create the
background `collect_weather_data` task and answer `started`. The
boolean records whether `asyncio.create_task` was called; the outer
`Option` is `none` when loading the stored blob raises. -/
def post_weather_data (catalog : List Int) (st : Option JValue) :
    Option (PostResponse × Bool) :=
  (get_weather_data st).map fun existing =>
    if existing = [] then (.started, true)
    else if existing.length = catalog.length then (.completed, false)
    else (.resuming, false)

/-- Whether one `POST /weather` call on store state `st` starts a
background collection job. -/
def startsJob (catalog : List Int) (st : Option JValue) : Bool :=
  match post_weather_data catalog st with
  | some (_, b) => b
  | none => false

/-- Two simultaneous `POST /weather` calls for the same user: both
handlers read the store before either background job has written to it
(the handler itself never writes), so both evaluate on the same state
`st`; the value counts how many background jobs the pair starts. -/
def simultaneousStarts (catalog : List Int) (st : Option JValue) : Nat :=
  (if startsJob catalog st then 1 else 0) +
    (if startsJob catalog st then 1 else 0)

/-- `get_weather_progress` (src/main.py lines 156-162): load the data;
an empty list (key absent, or an empty stored list) raises the 404,
modelled as the inner `none`; otherwise answer
`len(data) / len(CITIES) * 100`. The outer `Option` is `none` when
loading raises. -/
def get_weather_progress (catalog : List Int) (st : Option JValue) :
    Option (Option ℚ) :=
  (get_weather_data st).map fun data =>
    if data = [] then none
    else some ((data.length : ℚ) / (catalog.length : ℚ) * 100)

/-- State of the `ratelimit` package's `RateLimitDecorator` that wraps
`fetch_weather_data` (src/main.py lines 53-54): the time of the last
window reset (initially the decoration time, taken as 0) and the number
of calls counted since then. -/
structure LimiterState where
  lastReset : Nat
  numCalls : Nat
deriving DecidableEq

/-- One pass through the decorated call at time `t`, with the
`sleep_and_retry` wrapper folded in: if the period since `lastReset`
has elapsed, reset the window and grant at `t`; else if fewer than `N`
calls are counted, grant at `t`; else the decorator raises
`RateLimitException` with the remaining period and `sleep_and_retry`
sleeps exactly until `lastReset + T`, where the retry finds the period
elapsed, resets, and is granted. Returns the state after the grant and
the grant time. (Calls are serialized: the decorator takes a lock and
`time.sleep` suspends the single event-loop thread.) -/
def acquire (N T : Nat) (s : LimiterState) (t : Nat) : LimiterState × Nat :=
  if T ≤ t - s.lastReset then (⟨t, 1⟩, t)
  else if s.numCalls < N then (⟨s.lastReset, s.numCalls + 1⟩, t)
  else (⟨s.lastReset + T, 1⟩, s.lastReset + T)

/-- Run a sequence of rate-limited calls with arrival times `as` through
the limiter, starting from state `s` at time `now`; each call starts at
the later of its arrival and the end of the previous call's grant, and
the returned list gives the grant times in order. -/
def runLimiter (N T : Nat) (s : LimiterState) (now : Nat) :
    List Nat → List Nat
  | [] => []
  | a :: as =>
    ((acquire N T s (max now a)).2) ::
      runLimiter N T (acquire N T s (max now a)).1
        (acquire N T s (max now a)).2 as

/-- Like `runLimiter`, but each grant is paired with the window (the
`lastReset` value) it was granted in. -/
def runLimiterE (N T : Nat) (s : LimiterState) (now : Nat) :
    List Nat → List (Nat × Nat)
  | [] => []
  | a :: as =>
    ((acquire N T s (max now a)).1.lastReset, (acquire N T s (max now a)).2) ::
      runLimiterE N T (acquire N T s (max now a)).1
        (acquire N T s (max now a)).2 as

/-! ## Helper lemmas -/

/-- Concatenating the slices of the batching loop gives back the sliced
list: the loop visits every element exactly once, in order. -/
lemma chunksAux_flatten {α : Type} (B : Nat) (hB : 1 ≤ B) :
    ∀ (fuel : Nat) (l : List α), l.length ≤ fuel →
      (chunksAux B fuel l).flatten = l := by
  intro fuel
  induction fuel with
  | zero =>
    intro l hl
    cases l with
    | nil => rfl
    | cons x xs => simp at hl
  | succ fuel ih =>
    intro l hl
    cases l with
    | nil => rfl
    | cons x xs =>
      obtain ⟨B', rfl⟩ : ∃ B', B = B' + 1 := ⟨B - 1, by omega⟩
      simp only [List.length_cons] at hl
      simp only [chunksAux, List.flatten_cons, Nat.add_sub_cancel]
      rw [ih (xs.drop B') (by simp only [List.length_drop]; omega)]
      rw [show xs.drop B' = (x :: xs).drop (B' + 1) from rfl]
      exact List.take_append_drop (B' + 1) (x :: xs)

/-- `chunks` version of `chunksAux_flatten`. -/
lemma chunks_flatten {α : Type} (B : Nat) (hB : 1 ≤ B) (l : List α) :
    (chunks B l).flatten = l :=
  chunksAux_flatten B hB l.length l le_rfl

/-- Decoding an encoded observation record recovers it. -/
lemma decodeWD_encodeWD (d : WeatherData) : decodeWD (encodeWD d) = some d := rfl

/-- Decoding a list of encoded observation records recovers the list. -/
lemma decodeAll_encode (l : List WeatherData) :
    decodeAll (l.map encodeWD) = some l := by
  induction l with
  | nil => rfl
  | cons d ds ih => simp [decodeAll, decodeWD_encodeWD, ih]

/-- Reading a key right after `store_weather_data` wrote it yields the
stored list. -/
lemma get_store (l : List WeatherData) :
    get_weather_data (some (store_weather_data l)) = some l := by
  simp [get_weather_data, store_weather_data, decodeAll_encode]

/-- One persisted state per batch. -/
lemma runBatches_length (f : Int → Option WeatherData) :
    ∀ (bs : List (List Int)) (r : List WeatherData),
      (runBatches f r bs).length = bs.length := by
  intro bs
  induction bs with
  | nil => intro r; rfl
  | cons b bs ih => intro r; simp [runBatches, ih]

/-- The state persisted after batch `k` (0-based) is the loaded state
followed by the successful observations of batches `0..k`, in order. -/
lemma runBatches_getElem? (f : Int → Option WeatherData) :
    ∀ (bs : List (List Int)) (r : List WeatherData) (k : Nat), k < bs.length →
      (runBatches f r bs)[k]? =
        some (r ++ ((bs.take (k + 1)).map (process_batch f)).flatten) := by
  intro bs
  induction bs with
  | nil => intro r k hk; simp at hk
  | cons b bs ih =>
    intro r k hk
    cases k with
    | zero => simp [runBatches]
    | succ k =>
      simp only [runBatches, List.getElem?_cons_succ]
      rw [ih _ k (by simpa using hk)]
      simp [List.append_assoc]

/-- `collectSnapshots` specialization of `runBatches_length`. -/
lemma collectSnapshots_length (catalog : List Int)
    (f : Int → Option WeatherData) (stored : List WeatherData) :
    (collectSnapshots catalog f stored).length =
      (chunks BATCH_SIZE (remainingCities catalog stored)).length :=
  runBatches_length f _ stored

/-- `collectSnapshots` specialization of `runBatches_getElem?`. -/
lemma collectSnapshots_getElem? (catalog : List Int)
    (f : Int → Option WeatherData) (stored : List WeatherData) (k : Nat)
    (hk : k < (collectSnapshots catalog f stored).length) :
    (collectSnapshots catalog f stored)[k]? =
      some (stored ++
        (((chunks BATCH_SIZE (remainingCities catalog stored)).take (k + 1)).map
          (process_batch f)).flatten) :=
  runBatches_getElem? f _ stored k
    (by rw [← collectSnapshots_length catalog f stored]; exact hk)

/-! ## Claim theorems -/

/-- C1: for every run, the cities fetched are exactly the catalog minus
the city ids already present in the persisted state loaded at the start
of the run; in particular a city id already persisted at that point is
never fetched during the run. Quantifying over `stored` covers every
resumption, since each run recomputes its work from the state persisted
at its own start. -/
theorem fetched_iff_remaining (catalog : List Int) (stored : List WeatherData)
    (c : Int) :
    c ∈ fetchedCities catalog stored ↔
      c ∈ catalog ∧ c ∉ stored.map WeatherData.city_id := by
  unfold fetchedCities
  rw [chunks_flatten BATCH_SIZE (by norm_num [BATCH_SIZE])]
  simp [remainingCities]

/-- C3: within one run, the state persisted after batch `k` (0-based) is
the loaded state followed by the successful observations of all batches
up to and including `k`; the write happens in the loop iteration of
batch `k`, before batch `k+1` is fetched, so a stop after that write
loses at most the in-flight batch. -/
theorem batch_persisted_before_next (catalog : List Int)
    (f : Int → Option WeatherData) (stored : List WeatherData) (k : Nat)
    (hk : k < (collectSnapshots catalog f stored).length) :
    (collectSnapshots catalog f stored)[k]? =
      some (stored ++
        (((chunks BATCH_SIZE (remainingCities catalog stored)).take (k + 1)).map
          (process_batch f)).flatten) :=
  collectSnapshots_getElem? catalog f stored k hk

/-- Witness for C3 at the spec's scenario catalog `[100, 200, 300]`
(one batch, since `BATCH_SIZE = 60`). -/
theorem batch_persisted_before_next_w :
    0 < (collectSnapshots [100, 200, 300]
          (fun c => some ⟨"u", "d", c, 0, 0⟩) []).length ∧
    (collectSnapshots [100, 200, 300]
        (fun c => some ⟨"u", "d", c, 0, 0⟩) [])[0]? =
      some ([] ++
        (((chunks BATCH_SIZE (remainingCities [100, 200, 300] [])).take (0 + 1)).map
          (process_batch (fun c => some ⟨"u", "d", c, 0, 0⟩))).flatten) :=
  ⟨by decide, batch_persisted_before_next [100, 200, 300]
    (fun c => some ⟨"u", "d", c, 0, 0⟩) [] 0 (by decide)⟩

/-- C7: (1) a fetch whose HTTP round-trip fails in any way — transport
error, unexpected exception, non-success status, or a success response
missing one of the fields the code reads — yields `none` instead of an
observation, and only those fetches do; (2) a batch's result contains
exactly the successful observations of its cities; (3) the job
processes all its batches no matter what the individual fetch outcomes
are: no fetch failure aborts the batch or the job. -/
theorem fetch_failures_surface_as_none :
    (∀ (o : FetchOutcome) (c : Int) (u now : String),
        fetch_weather_data o c u now = none ↔ isFailure o = true) ∧
    (∀ (f : Int → Option WeatherData) (b : List Int) (d : WeatherData),
        d ∈ process_batch f b ↔ ∃ c ∈ b, f c = some d) ∧
    (∀ (catalog : List Int) (env : Int → FetchOutcome) (nowf : Int → String)
        (user : String) (stored : List WeatherData),
        (collect_weather_data catalog env nowf user stored).length =
          (chunks BATCH_SIZE (remainingCities catalog stored)).length) := by
  refine ⟨?_, ?_, ?_⟩
  · intro o c u now
    cases o with
    | ok p =>
      obtain ⟨t, h, n⟩ := p
      cases t <;> cases h <;> cases n <;>
        simp [fetch_weather_data, isFailure]
    | httpError s => simp [fetch_weather_data, isFailure]
    | clientError => simp [fetch_weather_data, isFailure]
    | otherError => simp [fetch_weather_data, isFailure]
  · intro f b d
    simp [process_batch, List.mem_filterMap, List.mem_map]
  · intro catalog env nowf user stored
    exact collectSnapshots_length catalog _ stored

/-- C9: storing an observation list and reading it back through the
JSON serialization returns the stored list: the round-trip through the
store is the identity. -/
theorem store_get_roundtrip (data : List WeatherData) :
    get_weather_data (some (store_weather_data data)) = some data :=
  get_store data

/-- C10: within one run, every later persisted state extends an earlier
one by appending: the earlier persisted list is an initial segment of
the later one, and its length never decreases. -/
theorem persisted_states_monotone (catalog : List Int)
    (f : Int → Option WeatherData) (stored : List WeatherData) (i j : Nat)
    (hij : i ≤ j) (hj : j < (collectSnapshots catalog f stored).length) :
    (∃ t, (collectSnapshots catalog f stored)[j]?.getD [] =
        ((collectSnapshots catalog f stored)[i]?.getD []) ++ t) ∧
      ((collectSnapshots catalog f stored)[i]?.getD []).length ≤
        ((collectSnapshots catalog f stored)[j]?.getD []).length := by
  have hi : i < (collectSnapshots catalog f stored).length :=
    lt_of_le_of_lt hij hj
  have key : (((chunks BATCH_SIZE (remainingCities catalog stored)).take (j + 1)).map
        (process_batch f)).flatten =
      (((chunks BATCH_SIZE (remainingCities catalog stored)).take (i + 1)).map
        (process_batch f)).flatten ++
      ((((chunks BATCH_SIZE (remainingCities catalog stored)).drop (i + 1)).take
        (j - i)).map (process_batch f)).flatten := by
    rw [show j + 1 = (i + 1) + (j - i) by omega, List.take_add,
      List.map_append, List.flatten_append]
  rw [collectSnapshots_getElem? catalog f stored i hi,
    collectSnapshots_getElem? catalog f stored j hj, key]
  simp only [Option.getD_some]
  constructor
  · exact ⟨_, (List.append_assoc stored _ _).symm⟩
  · simp only [List.length_append]
    omega

/-- Witness for C10: a 61-city catalog gives two batches; the state
persisted after batch 0 is an initial segment of the one persisted
after batch 1. -/
theorem persisted_states_monotone_w :
    (∃ t, (collectSnapshots ((List.range 61).map Int.ofNat)
          (fun c => some ⟨"u", "d", c, 0, 0⟩) [])[1]?.getD [] =
        ((collectSnapshots ((List.range 61).map Int.ofNat)
          (fun c => some ⟨"u", "d", c, 0, 0⟩) [])[0]?.getD []) ++ t) ∧
      ((collectSnapshots ((List.range 61).map Int.ofNat)
          (fun c => some ⟨"u", "d", c, 0, 0⟩) [])[0]?.getD []).length ≤
        ((collectSnapshots ((List.range 61).map Int.ofNat)
          (fun c => some ⟨"u", "d", c, 0, 0⟩) [])[1]?.getD []).length :=
  persisted_states_monotone ((List.range 61).map Int.ofNat)
    (fun c => some ⟨"u", "d", c, 0, 0⟩) [] 0 1 (by decide) (by decide)

/-- C4: for a user whose persisted state covers the full catalog —
stated through the CollectionState invariants: the persisted city ids
are distinct, lie in the catalog, and cover it, with the catalog itself
duplicate-free and non-empty — a start request answers `completed` and
creates no background task, hence issues no fetch. The handler never
writes the store, so every repeated invocation sees the same state and
answers the same way. -/
theorem completed_user_idempotent (catalog : List Int) (st : Option JValue)
    (l : List WeatherData) (hload : get_weather_data st = some l)
    (hcat : catalog.Nodup) (hids : (l.map WeatherData.city_id).Nodup)
    (hsub : ∀ c, c ∈ l.map WeatherData.city_id → c ∈ catalog)
    (hcover : ∀ c, c ∈ catalog → c ∈ l.map WeatherData.city_id)
    (hne : catalog ≠ []) :
    post_weather_data catalog st = some (PostResponse.completed, false) := by
  have hperm : (l.map WeatherData.city_id).Perm catalog :=
    (List.perm_ext_iff_of_nodup hids hcat).mpr fun a => ⟨hsub a, hcover a⟩
  have hlen : l.length = catalog.length := by
    have h := hperm.length_eq
    simpa using h
  have hlne : l ≠ [] := by
    intro h
    subst h
    cases catalog with
    | nil => exact hne rfl
    | cons c cs => simpa using hcover c (by simp)
  simp [post_weather_data, hload, hlne, hlen]

/-- Witness for C4: a one-city catalog fully covered by the stored
state. -/
theorem completed_user_idempotent_w :
    post_weather_data [100]
        (some (store_weather_data [⟨"u", "d", 100, 21, 40⟩])) =
      some (PostResponse.completed, false) :=
  completed_user_idempotent [100]
    (some (store_weather_data [⟨"u", "d", 100, 21, 40⟩]))
    [⟨"u", "d", 100, 21, 40⟩] (by decide) (by decide) (by decide)
    (by decide) (by decide) (by decide)

/-- C5 (code evaluation at the failing input): catalog
`[100, 200, 300]`, a user whose persisted state holds cities 100 and
300 only and who has no active job. The handler answers
"Resuming data collection" but `asyncio.create_task` is only reached
when no data exists, so no job is started and city 200 is never
attempted — the started-job flag is `false`. -/
theorem resume_request_starts_no_job :
    post_weather_data [100, 200, 300]
        (some (store_weather_data
          [⟨"u", "d1", 100, 21, 40⟩, ⟨"u", "d2", 300, 19, 55⟩])) =
      some (PostResponse.resuming, false) := by decide

/-- C6 (counterexample): two simultaneous start requests for a user
with no persisted data both pass the only guard there is — the
emptiness check on the persisted state — so the pair starts two
background jobs, not one, and the second answers `started`, not an
"already in progress" status. -/
theorem simultaneous_starts_two_jobs :
    simultaneousStarts [100] none = 2 ∧ (2 : Nat) ≠ 1 ∧
      post_weather_data [100] none = some (PostResponse.started, true) := by
  decide

/-- C6 (amended): duplicate-start suppression rests solely on the
persisted state, there is no in-memory job registry: two simultaneous
start requests both start a job when the user's persisted list is
empty, and neither starts one when it is non-empty. -/
theorem duplicate_start_unguarded (catalog : List Int) (st : Option JValue)
    (l : List WeatherData) (hload : get_weather_data st = some l) :
    simultaneousStarts catalog st = if l = [] then 2 else 0 := by
  by_cases hl : l = []
  · simp [simultaneousStarts, startsJob, post_weather_data, hload, hl]
  · by_cases hlen : l.length = catalog.length <;>
      simp [simultaneousStarts, startsJob, post_weather_data, hload, hl, hlen]

/-- Witness for the amended C6 at an absent key. -/
theorem duplicate_start_unguarded_w :
    simultaneousStarts [100] none =
      if ([] : List WeatherData) = [] then 2 else 0 :=
  duplicate_start_unguarded [100] none [] rfl

/-- C8 (counterexample): a user whose CollectionState exists but is
empty — reachable, since a first batch whose fetches all fail stores
`[]` — still gets the NotFound answer from the progress query, although
a state exists for that user. -/
theorem progress_notfound_on_existing_state :
    get_weather_progress [100] (some (store_weather_data [])) = some none ∧
      some (store_weather_data []) ≠ (none : Option JValue) :=
  ⟨rfl, by simp⟩

/-- C8 (amended): the progress query answers NotFound exactly when the
user's persisted observation list is empty or the key is absent;
otherwise it answers the collected count over the catalog size as a
percentage. -/
theorem progress_iff_nonempty (catalog : List Int) (st : Option JValue)
    (l : List WeatherData) (hload : get_weather_data st = some l) :
    get_weather_progress catalog st =
      some (if l = [] then none
        else some ((l.length : ℚ) / (catalog.length : ℚ) * 100)) := by
  simp [get_weather_progress, hload]

/-- Witness for the amended C8: one of two cities collected reports
50%. -/
theorem progress_iff_nonempty_w :
    get_weather_progress [100, 200]
        (some (store_weather_data [⟨"u", "d", 100, 21, 40⟩])) =
      some (if ([⟨"u", "d", 100, 21, 40⟩] : List WeatherData) = [] then none
        else some ((([⟨"u", "d", 100, 21, 40⟩] : List WeatherData).length : ℚ) /
          (([100, 200] : List Int).length : ℚ) * 100)) :=
  progress_iff_nonempty [100, 200]
    (some (store_weather_data [⟨"u", "d", 100, 21, 40⟩]))
    [⟨"u", "d", 100, 21, 40⟩] (by decide)

/-- One grant per processed arrival: the limiter delays calls, it never
drops one. -/
lemma runLimiterE_length (N T : Nat) :
    ∀ (as : List Nat) (s : LimiterState) (now : Nat),
      (runLimiterE N T s now as).length = as.length := by
  intro as
  induction as with
  | nil => intro s now; rfl
  | cons a as ih => intro s now; simp [runLimiterE, ih]

/-- Window-count invariant of the fixed-window limiter: starting from a
state whose call count does not exceed `N`, the run grants at most `N`
calls inside any one window — at most `N - numCalls` more in the
current window, none in an already-closed window. -/
lemma epochCount_le (N T : Nat) (hN : 1 ≤ N) (hT : 1 ≤ T) :
    ∀ (as : List Nat) (s : LimiterState) (now : Nat) (e : Nat),
      s.numCalls ≤ N →
      ((runLimiterE N T s now as).countP (fun p => decide (p.1 = e))) ≤
        (if e < s.lastReset then 0
         else if e = s.lastReset then N - s.numCalls else N) := by
  intro as
  induction as with
  | nil =>
    intro s now e h
    simp only [runLimiterE, List.countP_nil]
    split_ifs <;> omega
  | cons a as ih =>
    intro s now e h
    by_cases h1 : T ≤ max now a - s.lastReset
    · have hstep : runLimiterE N T s now (a :: as) =
          (max now a, max now a) ::
            runLimiterE N T ⟨max now a, 1⟩ (max now a) as := by
        simp [runLimiterE, acquire, h1]
      have IH : ((runLimiterE N T ⟨max now a, 1⟩ (max now a) as).countP
            (fun p => decide (p.1 = e))) ≤
          (if e < max now a then 0
           else if e = max now a then N - 1 else N) :=
        ih ⟨max now a, 1⟩ (max now a) e hN
      rw [hstep]
      simp only [List.countP_cons, decide_eq_true_eq]
      split_ifs at IH ⊢ <;> omega
    · by_cases h2 : s.numCalls < N
      · have hstep : runLimiterE N T s now (a :: as) =
            (s.lastReset, max now a) ::
              runLimiterE N T ⟨s.lastReset, s.numCalls + 1⟩ (max now a) as := by
          simp [runLimiterE, acquire, h1, h2]
        have IH : ((runLimiterE N T ⟨s.lastReset, s.numCalls + 1⟩
              (max now a) as).countP (fun p => decide (p.1 = e))) ≤
            (if e < s.lastReset then 0
             else if e = s.lastReset then N - (s.numCalls + 1) else N) :=
          ih ⟨s.lastReset, s.numCalls + 1⟩ (max now a) e
            (show s.numCalls + 1 ≤ N by omega)
        rw [hstep]
        simp only [List.countP_cons, decide_eq_true_eq]
        split_ifs at IH ⊢ <;> omega
      · have hstep : runLimiterE N T s now (a :: as) =
            (s.lastReset + T, s.lastReset + T) ::
              runLimiterE N T ⟨s.lastReset + T, 1⟩ (s.lastReset + T) as := by
          simp [runLimiterE, acquire, h1, h2]
        have IH : ((runLimiterE N T ⟨s.lastReset + T, 1⟩
              (s.lastReset + T) as).countP (fun p => decide (p.1 = e))) ≤
            (if e < s.lastReset + T then 0
             else if e = s.lastReset + T then N - 1 else N) :=
          ih ⟨s.lastReset + T, 1⟩ (s.lastReset + T) e hN
        rw [hstep]
        simp only [List.countP_cons, decide_eq_true_eq]
        split_ifs at IH ⊢ <;> omega

/-- C2 (counterexample, at the configured limit of `RATE_LIMIT = 60`
calls per `TIME_PERIOD = 60` seconds): 61 back-to-back calls arriving
at second 59 — one second before the first fixed window, anchored at
process start, expires. The library grants 60 of them at second 59 and,
after a one-second sleep, the 61st at second 60: 61 grants fall inside
the rolling 60-second window `[30, 90)`, exceeding the limit, and the
61st call is granted when the oldest permit is 1 second old, not
`TIME_PERIOD` seconds. -/
theorem rolling_window_bound_fails :
    RATE_LIMIT <
      ((runLimiter RATE_LIMIT TIME_PERIOD ⟨0, 0⟩ 0 (List.replicate 61 59)).countP
        (fun g => decide (30 ≤ g) && decide (g < 90))) ∧
    (runLimiter RATE_LIMIT TIME_PERIOD ⟨0, 0⟩ 0 (List.replicate 61 59)).head? =
      some 59 ∧
    (runLimiter RATE_LIMIT TIME_PERIOD ⟨0, 0⟩ 0 (List.replicate 61 59)).getLast? =
      some 60 := by
  decide

/-- C2 (amended): the `ratelimit` decorator enforces a fixed window
anchored at the last reset, not a rolling one: over any arrival
sequence, at most `N` calls are granted within any one window (any one
value of `lastReset`), and every call is eventually granted — delayed,
never dropped. Across two adjacent fixed windows, up to `2N` grants can
fall inside a single rolling `T`-second interval. -/
theorem limiter_fixed_window_bound (N T : Nat) (as : List Nat) (e : Nat)
    (hN : 1 ≤ N) (hT : 1 ≤ T) :
    ((runLimiterE N T ⟨0, 0⟩ 0 as).countP (fun p => decide (p.1 = e))) ≤ N ∧
      (runLimiterE N T ⟨0, 0⟩ 0 as).length = as.length := by
  constructor
  · have h := epochCount_le N T hN hT as ⟨0, 0⟩ 0 e (Nat.zero_le N)
    dsimp only at h
    split_ifs at h <;> omega
  · exact runLimiterE_length N T as ⟨0, 0⟩ 0

/-- Witness for the amended C2 at the configured limit, with three
back-to-back arrivals. -/
theorem limiter_fixed_window_bound_w :
    ((runLimiterE RATE_LIMIT TIME_PERIOD ⟨0, 0⟩ 0 [0, 0, 0]).countP
        (fun p => decide (p.1 = 0))) ≤ RATE_LIMIT ∧
      (runLimiterE RATE_LIMIT TIME_PERIOD ⟨0, 0⟩ 0 [0, 0, 0]).length =
        ([0, 0, 0] : List Nat).length :=
  limiter_fixed_window_bound RATE_LIMIT TIME_PERIOD [0, 0, 0] 0
    (by decide) (by decide)

end OpenWeather
